import Mathlib

/-!
# Playground: `USimpleHotkeyLibrary::GenerateKeyPressEvent` and the magic projectile

A shallow embedding of the two source files of the repository

* `Source/Playground/Public/SimpleHotkeyLibrary.h`
* `Source/Playground/MagicProjectile.cpp`

together with the properties proved about them.

Machine integers are natural numbers or integers with the wrap-around written
out.  The operating system and the engine (DLL lookup, `SendInput`, the key
manager, freshly allocated memory, engine default objects) are parameters of
the embedding: every theorem holds for all of them.
-/

set_option autoImplicit false
set_option linter.dupNamespace false

namespace Playground

/-! ## Windows and engine types used by the hotkey library -/

/-- Engine key identifier `FKey`, carried by its key name. -/
structure FKey where
  KeyName : String
  deriving DecidableEq

/-- The keyboard member `ki` of the Windows `INPUT` record (`KEYBDINPUT`):
`wVk` and `wScan` are 16-bit words, `dwFlags` and `time` 32-bit words and
`dwExtraInfo` a pointer-sized integer. -/
structure KEYBDINPUT where
  wVk : Nat
  wScan : Nat
  dwFlags : Nat
  time : Nat
  dwExtraInfo : Nat
  deriving DecidableEq

/-- The Windows `INPUT` record, seen through its keyboard member: the source
only ever writes `type` and `ki`. -/
structure INPUT where
  type : Nat
  ki : KEYBDINPUT
  deriving DecidableEq

/-- Value of `INPUT_KEYBOARD` in `WinUser.h`. -/
def INPUT_KEYBOARD : Nat := 1

/-- Value of `KEYEVENTF_KEYUP` in `WinUser.h`. -/
def KEYEVENTF_KEYUP : Nat := 0x0002

/-- The record produced by `KeyArray[i] = {}`: every field zero. -/
def INPUT.zero : INPUT :=
  { type := 0, ki := { wVk := 0, wScan := 0, dwFlags := 0, time := 0, dwExtraInfo := 0 } }

/-- A resolved `SendInputFn`: `UINT (UINT InputCount, LPINPUT Inputs, int InputStructSize)`.
The array behind `Inputs` is passed as the list of its records. -/
abbrev SendInputFn := Nat → List INPUT → Nat → Nat

/-- Everything outside the function body that `GenerateKeyPressEvent` depends on. -/
structure Platform where
  /-- whether `_MSC_VER` is defined, i.e. which branch of the `#ifdef` is compiled -/
  msc_ver : Bool
  /-- Engine call `FPlatformProcess::GetDllHandle`: `none` is the null handle -/
  GetDllHandle : String → Option Nat
  /-- Engine call `FPlatformProcess::GetDllExport`: `none` is the null pointer -/
  GetDllExport : Nat → String → Option SendInputFn
  /-- Engine call `FInputKeyManager::GetCodesFromKey`: the two out-pointers `KeyCode` and
  `CharCode`, `none` when the pointer is left null -/
  GetCodesFromKey : FKey → Option Nat × Option Nat
  /-- contents of the slot `i` of the array returned by `new INPUT[n]`
  (indeterminate in C++) -/
  indeterminate : Nat → INPUT
  /-- value of `sizeof(INPUT)` -/
  sizeofINPUT : Nat

/-- The calls `GenerateKeyPressEvent` makes to the operating system, in order. -/
inductive Call where
  | getDllHandle (name : String)
  | getDllExport (handle : Nat) (name : String)
  | sendInput (InputCount : Nat) (Inputs : List INPUT) (InputStructSize : Nat)

/-- Whether a call is the injection call. -/
def Call.isSendInput : Call → Bool
  | .sendInput _ _ _ => true
  | _ => false

/-! ## Integer conversions -/

/-- Value of type `uint32` held by a natural number. -/
def toUInt32 (n : Nat) : Nat := n % 2 ^ 32

/-- The `uint32` obtained from the `int` constant `-1`. -/
def uint32MinusOne : Nat := 2 ^ 32 - 1

/-- Narrowing of an unsigned value to the 16-bit `WORD` field `wVk`. -/
def toWORD (n : Nat) : Nat := n % 2 ^ 16

/-- Narrowing of the `UINT` returned by `SendInput` to `int16`
(two's complement wrap-around, as done by MSVC). -/
def toInt16 (n : Nat) : Int :=
  if n % 2 ^ 16 < 2 ^ 15 then ((n % 2 ^ 16 : Nat) : Int) else ((n % 2 ^ 16 : Nat) : Int) - 2 ^ 16

/-! ## `GenerateKeyPressEvent` -/

/-- Lines 74-86, the loop body: the record left in `KeyArray[i]` for the key
`InKeys[i]`.  The slot is first overwritten with `{}`, then `type`, `ki.dwFlags` and
`ki.wVk` are assigned; `KeyCodeVal != -1` compares two `uint32` values. -/
def keyRecord (P : Platform) (Key : FKey) (bPressed : Bool) : INPUT :=
  let slot := INPUT.zero
  let KeyCode := (P.GetCodesFromKey Key).1
  let CharCode := (P.GetCodesFromKey Key).2
  let KeyCodeVal : Nat := match KeyCode with
    | some c => toUInt32 c
    | none => uint32MinusOne
  let CharCodeVal : Nat := match CharCode with
    | some c => toUInt32 c
    | none => uint32MinusOne
  let slot := { slot with type := INPUT_KEYBOARD }
  let slot := { slot with ki := { slot.ki with dwFlags := if bPressed then 0 else KEYEVENTF_KEYUP } }
  { slot with ki := { slot.ki with
      wVk := toWORD (if KeyCodeVal ≠ uint32MinusOne then KeyCodeVal else CharCodeVal) } }

/-- Lines 72-88: the loop `for (int i = 0; i < InKeys.Num(); i++)`.  `fuel` bounds the
number of iterations still allowed; the loop is entered with `fuel = InKeys.Num()`. -/
def fillKeyArray (P : Platform) (InKeys : List FKey) (bPressed : Bool) :
    Nat → Nat → List INPUT → List INPUT
  | 0, _, KeyArray => KeyArray
  | fuel + 1, i, KeyArray =>
    if h : i < InKeys.length then
      fillKeyArray P InKeys bPressed fuel (i + 1)
        (KeyArray.set i (keyRecord P (InKeys.get ⟨i, h⟩) bPressed))
    else KeyArray

/-- Line 70: `new INPUT[n]`, an array of `n` slots of indeterminate content. -/
def newINPUT (P : Platform) (n : Nat) : List INPUT :=
  (List.range n).map P.indeterminate

/-- Lines 70-88: the array handed to `SendInput`. -/
def KeyArray (P : Platform) (InKeys : List FKey) (bPressed : Bool) : List INPUT :=
  fillKeyArray P InKeys bPressed InKeys.length 0 (newINPUT P InKeys.length)

/-- Function `USimpleHotkeyLibrary::GenerateKeyPressEvent`, lines 60-106: the returned
`bool` and the operating-system calls made, in order.  A `TArray` holds fewer than
`2 ^ 31` elements, so `InKeys.Num()` is the length of the list, also as a `UINT`. -/
def GenerateKeyPressEvent (P : Platform) (InKeys : List FKey) (bPressed : Bool) :
    Bool × List Call :=
  if P.msc_ver then
    match P.GetDllHandle "user32.dll" with
    | some User32Dll =>
      match P.GetDllExport User32Dll "SendInput" with
      | some SendWindowsInput =>
        let Keys := KeyArray P InKeys bPressed
        let Result : Int :=
          toInt16 (toUInt32 (SendWindowsInput InKeys.length Keys P.sizeofINPUT))
        (decide (Result = (InKeys.length : Int)),
          [Call.getDllHandle "user32.dll", Call.getDllExport User32Dll "SendInput",
           Call.sendInput InKeys.length Keys P.sizeofINPUT])
      | none =>
        (false, [Call.getDllHandle "user32.dll", Call.getDllExport User32Dll "SendInput"])
    | none => (false, [Call.getDllHandle "user32.dll"])
  else
    (false, [])

/-- The batches handed to the injection call during one run, in order. -/
def submitted : List Call → List (Nat × List INPUT × Nat)
  | [] => []
  | Call.sendInput n b s :: cs => (n, b, s) :: submitted cs
  | _ :: cs => submitted cs

/-! ## Concrete platforms and keys -/

/-- An injection routine that reports every submitted event as injected. -/
def sendAll : SendInputFn := fun InputCount _ _ => InputCount

/-- An injection routine that reports one event fewer than submitted. -/
def sendAllButOne : SendInputFn := fun InputCount _ _ => InputCount - 1

/-- Key codes of a small keyboard: `A` has both codes, `Enter` only a virtual-key code,
`Hash` only a character code, every other key none. -/
def smallKeyMap (Key : FKey) : Option Nat × Option Nat :=
  if Key.KeyName = "A" then (some 0x41, some 0x61)
  else if Key.KeyName = "Enter" then (some 0x0D, none)
  else if Key.KeyName = "Hash" then (none, some 0x23)
  else (none, none)

/-- A batch of 32768 keys, the shortest one whose length does not fit `int16`. -/
def manyKeys : List FKey := List.replicate 32768 (FKey.mk "A")

/-- The code selection as the specification words it: the virtual-key code when one
is supplied, else the character code when one is supplied, else the sentinel. -/
def specCode (codes : Option Nat × Option Nat) : Nat :=
  match codes with
  | (some KeyCode, _) => toUInt32 KeyCode
  | (none, some CharCode) => toUInt32 CharCode
  | (none, none) => uint32MinusOne

/-- A Windows build on which `user32.dll` loads (handle `1`) and `SendInput` resolves
to `send`; fresh memory holds the non-zero pattern `0xCD`. -/
def windows (send : SendInputFn) (codes : FKey → Option Nat × Option Nat) : Platform :=
  { msc_ver := true
    GetDllHandle := fun _ => some 1
    GetDllExport := fun _ _ => some send
    GetCodesFromKey := codes
    indeterminate := fun _ =>
      { type := 0xCD, ki := { wVk := 0xCD, wScan := 0xCD, dwFlags := 0xCD, time := 0xCD,
                              dwExtraInfo := 0xCD } }
    sizeofINPUT := 40 }

/-- A Windows build on which `user32.dll` loads but has no `SendInput` export. -/
def windowsNoExport : Platform :=
  { windows sendAll smallKeyMap with GetDllExport := fun _ _ => none }

/-- A build without `_MSC_VER`. -/
def otherPlatform : Platform :=
  { windows sendAll smallKeyMap with msc_ver := false }

/-! ## The projectile

Scalars (`float` in the source) are an arbitrary type `α`: the literals of the
constructor are read through `OfScientific`, the product of `FireInDirection`
through `Mul`.  A pointer is `none` when null and otherwise holds the state of the
object it points to. -/

/-- Engine vector `FVector` over the scalar type `α`. -/
structure FVector (α : Type) where
  X : α
  Y : α
  Z : α

/-- Modelled from the spec: the engine operator `FVector::operator*(float)`, which is
not part of the repository; the velocity is `direction × speed`, componentwise. -/
def FVector.scale {α : Type} [Mul α] (V : FVector α) (Scale : α) : FVector α :=
  { X := V.X * Scale, Y := V.Y * Scale, Z := V.Z * Scale }

/-- Engine `USphereComponent`: the radius set by `InitSphereRadius`. -/
structure USphereComponent (α : Type) where
  SphereRadius : α

/-- What `RootComponent` points to: a plain scene component (by subobject name) or
the collision sphere. -/
inductive USceneComponent (α : Type) where
  | scene (name : String)
  | sphere (c : USphereComponent α)

/-- Engine `UProjectileMovementComponent`: the fields the source reads or writes. -/
structure UProjectileMovementComponent (α : Type) where
  UpdatedComponent : Option (USphereComponent α)
  InitialSpeed : α
  MaxSpeed : α
  bRotationFollowsVelocity : Bool
  bShouldBounce : Bool
  Bounciness : α
  ProjectileGravityScale : α
  Velocity : FVector α

/-- The members of the actor that the source touches. -/
structure AMagicProjectile (α : Type) where
  bCanEverTick : Bool
  RootComponent : Option (USceneComponent α)
  CollisionComponent : Option (USphereComponent α)
  ProjectileMovementComponent : Option (UProjectileMovementComponent α)

/-- The objects `CreateDefaultSubobject` hands out, with the engine's default values. -/
structure Engine (α : Type) where
  newSphere : USphereComponent α
  newMovement : UProjectileMovementComponent α

/-- Constructor `AMagicProjectile::AMagicProjectile()`, lines 7-37, run on the
members as they are when the constructor is entered. -/
def AMagicProjectile.AMagicProjectile {α : Type} [OfScientific α] (E : Engine α)
    (self : AMagicProjectile α) : AMagicProjectile α :=
  let self := { self with bCanEverTick := true }
  let self :=
    if self.RootComponent.isNone then
      { self with RootComponent := some (USceneComponent.scene "ProjectileSceneComponent") }
    else self
  let self :=
    if self.CollisionComponent.isNone then
      let sphere : USphereComponent α := { E.newSphere with SphereRadius := 15.0 }
      { self with CollisionComponent := some sphere
                  RootComponent := some (USceneComponent.sphere sphere) }
    else self
  let self :=
    if self.ProjectileMovementComponent.isNone then
      let movement : UProjectileMovementComponent α :=
        { E.newMovement with
            UpdatedComponent := self.CollisionComponent
            InitialSpeed := 5000.0
            MaxSpeed := 5000.0
            bRotationFollowsVelocity := true
            bShouldBounce := true
            Bounciness := 0.2
            ProjectileGravityScale := 0.0 }
      { self with ProjectileMovementComponent := some movement }
    else self
  self

/-- Method `AFPSProjectile::FireInDirection`, lines 54-57 (the source qualifies it with
`AFPSProjectile`; it is run here on the members of the actor of this file).
Dereferencing a null `ProjectileMovementComponent` has no result. -/
def AFPSProjectile.FireInDirection {α : Type} [Mul α] (self : AMagicProjectile α)
    (ShootDirection : FVector α) : Option (AMagicProjectile α) :=
  match self.ProjectileMovementComponent with
  | none => none
  | some movement =>
    some { self with
      ProjectileMovementComponent :=
        some { movement with Velocity := ShootDirection.scale movement.InitialSpeed } }

/-- A sequence of `FireInDirection` calls, one per direction, in order. -/
def fireAll {α : Type} [Mul α] :
    AMagicProjectile α → List (FVector α) → Option (AMagicProjectile α)
  | self, [] => some self
  | self, d :: ds =>
    match AFPSProjectile.FireInDirection self d with
    | some self' => fireAll self' ds
    | none => none

/-- The members of an actor whose constructor has not run yet: all pointers null. -/
def blankActor (α : Type) : AMagicProjectile α :=
  { bCanEverTick := false, RootComponent := none, CollisionComponent := none,
    ProjectileMovementComponent := none }

/-- Engine defaults over the rationals: unit sphere, movement component at rest with
gravity scale `1` and no bounce. -/
def ratEngine : Engine ℚ :=
  { newSphere := { SphereRadius := 1 }
    newMovement :=
      { UpdatedComponent := none, InitialSpeed := 0, MaxSpeed := 0,
        bRotationFollowsVelocity := false, bShouldBounce := false, Bounciness := 3 / 5,
        ProjectileGravityScale := 1, Velocity := { X := 0, Y := 0, Z := 0 } } }

/-! ## The loop fills the whole array -/

/-- With at least as much fuel as there are slots left, the loop leaves the first `i`
slots alone and writes the record of each remaining key, in order. -/
theorem fillKeyArray_eq (P : Platform) (InKeys : List FKey) (bPressed : Bool) :
    ∀ (fuel i : Nat) (arr : List INPUT), InKeys.length ≤ fuel + i → i ≤ InKeys.length →
      arr.length = InKeys.length →
      fillKeyArray P InKeys bPressed fuel i arr
        = arr.take i ++ (InKeys.drop i).map (fun Key => keyRecord P Key bPressed) := by
  intro fuel
  induction fuel with
  | zero =>
    intro i arr hi hi2 hlen
    have hi0 : i = InKeys.length := by omega
    simp [fillKeyArray, hi0, ← hlen]
  | succ fuel ih =>
    intro i arr hi hi2 hlen
    by_cases hlt : i < InKeys.length
    · have hlt2 : i < arr.length := by omega
      rw [fillKeyArray, dif_pos hlt, ih (i + 1) _ (by omega) (by omega) (by simpa using hlen)]
      rw [List.drop_eq_getElem_cons hlt, List.map_cons, List.take_succ]
      have htake : (arr.set i (keyRecord P InKeys[i] bPressed)).take i = arr.take i := by
        rw [List.set_take, List.set_eq_of_length_le (by simp)]
      simp [List.getElem?_set, hlt2, htake]
    · have hi0 : i = InKeys.length := by omega
      rw [fillKeyArray, dif_neg hlt]
      simp [hi0, ← hlen]

/-- Any fuel from `InKeys.Num()` upwards lets the loop run to its end: the array
holds the record of each key, in input order, and nothing of the fresh memory. -/
theorem fillKeyArray_enough_fuel (P : Platform) (InKeys : List FKey) (bPressed : Bool)
    (fuel : Nat) (h : InKeys.length ≤ fuel) :
    fillKeyArray P InKeys bPressed fuel 0 (newINPUT P InKeys.length)
      = InKeys.map (fun Key => keyRecord P Key bPressed) := by
  rw [fillKeyArray_eq P InKeys bPressed fuel 0 _ (by omega) (by omega) (by simp [newINPUT])]
  simp

/-- The array handed to `SendInput` is the list of the records of the keys. -/
theorem KeyArray_eq_map (P : Platform) (InKeys : List FKey) (bPressed : Bool) :
    KeyArray P InKeys bPressed = InKeys.map (fun Key => keyRecord P Key bPressed) :=
  fillKeyArray_enough_fuel P InKeys bPressed InKeys.length (Nat.le_refl _)

/-! ## Shape of a run -/

/-- A run with the library loaded and the export resolved. -/
theorem GenerateKeyPressEvent_resolved (P : Platform) (InKeys : List FKey) (bPressed : Bool)
    (dll : Nat) (send : SendInputFn) (hw : P.msc_ver = true)
    (hd : P.GetDllHandle "user32.dll" = some dll)
    (he : P.GetDllExport dll "SendInput" = some send) :
    GenerateKeyPressEvent P InKeys bPressed
      = (decide (toInt16 (toUInt32 (send InKeys.length (KeyArray P InKeys bPressed) P.sizeofINPUT))
            = (InKeys.length : Int)),
         [Call.getDllHandle "user32.dll", Call.getDllExport dll "SendInput",
          Call.sendInput InKeys.length (KeyArray P InKeys bPressed) P.sizeofINPUT]) := by
  simp [GenerateKeyPressEvent, hw, hd, he]

/-- Whatever the platform does, a run submits nothing but the filled key array. -/
theorem submitted_eq (P : Platform) (InKeys : List FKey) (bPressed : Bool)
    (e : Nat × List INPUT × Nat)
    (h : e ∈ submitted (GenerateKeyPressEvent P InKeys bPressed).2) :
    e = (InKeys.length, KeyArray P InKeys bPressed, P.sizeofINPUT) := by
  unfold GenerateKeyPressEvent at h
  split at h
  · split at h
    · split at h
      · simpa [submitted] using h
      · simp [submitted] at h
    · simp [submitted] at h
  · simp [submitted] at h

/-- The narrowed count of a report below `2 ^ 15` is the report itself. -/
theorem toInt16_of_lt (n : Nat) (h : n < 2 ^ 15) : toInt16 n = (n : Int) := by
  unfold toInt16
  have h1 : n % 2 ^ 16 = n := Nat.mod_eq_of_lt (by omega)
  rw [h1, if_pos h]

/-- The narrowed count never exceeds `2 ^ 15 - 1`. -/
theorem toInt16_lt (n : Nat) : toInt16 n < 2 ^ 15 := by
  unfold toInt16
  have h1 : n % 2 ^ 16 < 2 ^ 16 := Nat.mod_lt _ (by norm_num)
  split <;> omega

/-- The long batch has 32768 keys. -/
theorem manyKeys_length : manyKeys.length = 32768 := List.length_replicate _ _

/-- The routine `sendAll` reports its count argument. -/
theorem sendAll_apply (n : Nat) (b : List INPUT) (s : Nat) : sendAll n b s = n := rfl

/-! ## Return value -/

/-- C1 (evaluation at the failing input): with 32768 keys and an injection call that
reports all 32768 events as injected, the reported count equals the batch size and
yet `GenerateKeyPressEvent` returns `false`: the count is narrowed to `int16`
(becoming `-32768`) before it is compared. -/
theorem GenerateKeyPressEvent_all_injected_32768 :
    manyKeys.length = 32768
    ∧ sendAll manyKeys.length (KeyArray (windows sendAll smallKeyMap) manyKeys true) 40
        = manyKeys.length
    ∧ toInt16 (toUInt32 32768) = -32768
    ∧ (GenerateKeyPressEvent (windows sendAll smallKeyMap) manyKeys true).1 = false := by
  refine ⟨manyKeys_length, sendAll_apply _ _ _, by decide, ?_⟩
  rw [GenerateKeyPressEvent_resolved _ _ _ 1 sendAll rfl rfl rfl]
  simp only [manyKeys_length, sendAll_apply]
  decide

/-- C3: when `user32.dll` fails to load, or loads without a `SendInput` export,
`GenerateKeyPressEvent` returns `false` for every key sequence and either flag,
and no injection call is made. -/
theorem GenerateKeyPressEvent_unresolved (P : Platform) (InKeys : List FKey) (bPressed : Bool)
    (h : P.GetDllHandle "user32.dll" = none
      ∨ ∃ dll, P.GetDllHandle "user32.dll" = some dll ∧ P.GetDllExport dll "SendInput" = none) :
    (GenerateKeyPressEvent P InKeys bPressed).1 = false
    ∧ submitted (GenerateKeyPressEvent P InKeys bPressed).2 = []
    ∧ ((GenerateKeyPressEvent P InKeys bPressed).2.filter Call.isSendInput) = [] := by
  unfold GenerateKeyPressEvent
  rcases h with h | ⟨dll, hd, he⟩
  · cases P.msc_ver <;> simp [h, submitted, Call.isSendInput]
  · cases P.msc_ver <;> simp [hd, he, submitted, Call.isSendInput]

/-- C3 at a concrete input: `user32.dll` loads but exports no `SendInput`. -/
theorem GenerateKeyPressEvent_unresolved_witness :
    (windowsNoExport.GetDllHandle "user32.dll" = none
      ∨ ∃ dll, windowsNoExport.GetDllHandle "user32.dll" = some dll
          ∧ windowsNoExport.GetDllExport dll "SendInput" = none)
    ∧ (GenerateKeyPressEvent windowsNoExport [FKey.mk "A", FKey.mk "Enter"] true).1 = false
    ∧ submitted (GenerateKeyPressEvent windowsNoExport [FKey.mk "A", FKey.mk "Enter"] true).2 = []
    ∧ ((GenerateKeyPressEvent windowsNoExport [FKey.mk "A", FKey.mk "Enter"] true).2.filter
        Call.isSendInput) = [] :=
  ⟨Or.inr ⟨1, rfl, rfl⟩,
   GenerateKeyPressEvent_unresolved windowsNoExport [FKey.mk "A", FKey.mk "Enter"] true
     (Or.inr ⟨1, rfl, rfl⟩)⟩

/-- C4: on Windows with the entry point resolved, whenever the injection call reports
fewer events than the batch holds (`M < N`), `GenerateKeyPressEvent` returns `false`;
the count narrowed to `int16` differs from `N` as well. -/
theorem GenerateKeyPressEvent_partial (P : Platform) (InKeys : List FKey) (bPressed : Bool)
    (dll : Nat) (send : SendInputFn) (hw : P.msc_ver = true)
    (hd : P.GetDllHandle "user32.dll" = some dll)
    (he : P.GetDllExport dll "SendInput" = some send)
    (hM : toUInt32 (send InKeys.length (KeyArray P InKeys bPressed) P.sizeofINPUT)
            < InKeys.length) :
    (GenerateKeyPressEvent P InKeys bPressed).1 = false
    ∧ toInt16 (toUInt32 (send InKeys.length (KeyArray P InKeys bPressed) P.sizeofINPUT))
        ≠ (InKeys.length : Int) := by
  have key : toInt16 (toUInt32 (send InKeys.length (KeyArray P InKeys bPressed) P.sizeofINPUT))
      ≠ (InKeys.length : Int) := by
    intro heq
    by_cases hsmall :
        toUInt32 (send InKeys.length (KeyArray P InKeys bPressed) P.sizeofINPUT) < 2 ^ 15
    · rw [toInt16_of_lt _ hsmall] at heq
      omega
    · have := toInt16_lt
        (toUInt32 (send InKeys.length (KeyArray P InKeys bPressed) P.sizeofINPUT))
      omega
  refine ⟨?_, key⟩
  rw [GenerateKeyPressEvent_resolved P InKeys bPressed dll send hw hd he]
  simpa using key

/-- C4 at a concrete input: three keys, two events reported. -/
theorem GenerateKeyPressEvent_partial_witness :
    toUInt32 (sendAllButOne [FKey.mk "A", FKey.mk "Enter", FKey.mk "Hash"].length
        (KeyArray (windows sendAllButOne smallKeyMap)
          [FKey.mk "A", FKey.mk "Enter", FKey.mk "Hash"] false) 40)
      < [FKey.mk "A", FKey.mk "Enter", FKey.mk "Hash"].length
    ∧ (GenerateKeyPressEvent (windows sendAllButOne smallKeyMap)
        [FKey.mk "A", FKey.mk "Enter", FKey.mk "Hash"] false).1 = false
    ∧ toInt16 (toUInt32 (sendAllButOne [FKey.mk "A", FKey.mk "Enter", FKey.mk "Hash"].length
        (KeyArray (windows sendAllButOne smallKeyMap)
          [FKey.mk "A", FKey.mk "Enter", FKey.mk "Hash"] false) 40))
        ≠ (([FKey.mk "A", FKey.mk "Enter", FKey.mk "Hash"].length : Nat) : Int) :=
  ⟨by decide,
   GenerateKeyPressEvent_partial (windows sendAllButOne smallKeyMap)
     [FKey.mk "A", FKey.mk "Enter", FKey.mk "Hash"] false 1 sendAllButOne rfl rfl rfl
     (by decide)⟩

/-- C5: on Windows with the entry point resolved, the empty key sequence submits
zero events, and when the injection call reports zero injected the function
returns `true`, for either value of `bPressed`. -/
theorem GenerateKeyPressEvent_empty (P : Platform) (bPressed : Bool)
    (dll : Nat) (send : SendInputFn) (hw : P.msc_ver = true)
    (hd : P.GetDllHandle "user32.dll" = some dll)
    (he : P.GetDllExport dll "SendInput" = some send)
    (h0 : toUInt32 (send 0 [] P.sizeofINPUT) = 0) :
    (GenerateKeyPressEvent P [] bPressed).1 = true
    ∧ submitted (GenerateKeyPressEvent P [] bPressed).2 = [(0, [], P.sizeofINPUT)] := by
  have hk : KeyArray P [] bPressed = [] := by rw [KeyArray_eq_map]; rfl
  rw [GenerateKeyPressEvent_resolved P [] bPressed dll send hw hd he, hk]
  simp only [List.length_nil, h0]
  exact ⟨by decide, rfl⟩

/-- C5 at a concrete input: no keys, key release. -/
theorem GenerateKeyPressEvent_empty_witness :
    toUInt32 (sendAll 0 [] (windows sendAll smallKeyMap).sizeofINPUT) = 0
    ∧ (GenerateKeyPressEvent (windows sendAll smallKeyMap) [] false).1 = true
    ∧ submitted (GenerateKeyPressEvent (windows sendAll smallKeyMap) [] false).2
        = [(0, [], (windows sendAll smallKeyMap).sizeofINPUT)] :=
  ⟨by decide,
   GenerateKeyPressEvent_empty (windows sendAll smallKeyMap) false 1 sendAll rfl rfl rfl
     (by decide)⟩

/-- C8: on a build without `_MSC_VER` (a non-Windows platform) `GenerateKeyPressEvent`
returns `false` for every key sequence and either flag, and makes no call at all:
no library load, no export lookup, no injection. -/
theorem GenerateKeyPressEvent_unsupported (P : Platform) (InKeys : List FKey) (bPressed : Bool)
    (hw : P.msc_ver = false) :
    GenerateKeyPressEvent P InKeys bPressed = (false, []) := by
  simp [GenerateKeyPressEvent, hw]

/-- C8 at a concrete input: a build without `_MSC_VER`. -/
theorem GenerateKeyPressEvent_unsupported_witness :
    otherPlatform.msc_ver = false
    ∧ GenerateKeyPressEvent otherPlatform [FKey.mk "A", FKey.mk "Hash"] true = (false, []) :=
  ⟨rfl, GenerateKeyPressEvent_unsupported otherPlatform [FKey.mk "A", FKey.mk "Hash"] true rfl⟩

/-! ## The submitted batch -/

/-- C10: with the entry point resolved, the calls made are the library load, the
export lookup and exactly one injection call; its count argument is the number of
keys, and the batch holds one record per key, in input order, of type keyboard,
with `wScan`, `time` and `dwExtraInfo` zero whatever the fresh memory held. -/
theorem GenerateKeyPressEvent_batch (P : Platform) (InKeys : List FKey) (bPressed : Bool)
    (dll : Nat) (send : SendInputFn) (hw : P.msc_ver = true)
    (hd : P.GetDllHandle "user32.dll" = some dll)
    (he : P.GetDllExport dll "SendInput" = some send) :
    ∃ batch : List INPUT,
      (GenerateKeyPressEvent P InKeys bPressed).2
          = [Call.getDllHandle "user32.dll", Call.getDllExport dll "SendInput",
             Call.sendInput InKeys.length batch P.sizeofINPUT]
      ∧ submitted (GenerateKeyPressEvent P InKeys bPressed).2
          = [(InKeys.length, batch, P.sizeofINPUT)]
      ∧ batch.length = InKeys.length
      ∧ batch = InKeys.map (fun Key =>
          { type := INPUT_KEYBOARD
            ki := { wVk := (keyRecord P Key bPressed).ki.wVk
                    wScan := 0
                    dwFlags := if bPressed then 0 else KEYEVENTF_KEYUP
                    time := 0
                    dwExtraInfo := 0 } }) := by
  refine ⟨KeyArray P InKeys bPressed, ?_, ?_, ?_, ?_⟩
  · rw [GenerateKeyPressEvent_resolved P InKeys bPressed dll send hw hd he]
  · rw [GenerateKeyPressEvent_resolved P InKeys bPressed dll send hw hd he]
    rfl
  · rw [KeyArray_eq_map, List.length_map]
  · rw [KeyArray_eq_map]
    rfl

/-- C10 at a concrete input: the keys `Enter` and `A`, pressed. -/
theorem GenerateKeyPressEvent_batch_witness :
    ∃ batch : List INPUT,
      (GenerateKeyPressEvent (windows sendAll smallKeyMap) [FKey.mk "Enter", FKey.mk "A"] true).2
          = [Call.getDllHandle "user32.dll", Call.getDllExport 1 "SendInput",
             Call.sendInput [FKey.mk "Enter", FKey.mk "A"].length batch
               (windows sendAll smallKeyMap).sizeofINPUT]
      ∧ submitted
          (GenerateKeyPressEvent (windows sendAll smallKeyMap) [FKey.mk "Enter", FKey.mk "A"] true).2
          = [([FKey.mk "Enter", FKey.mk "A"].length, batch,
              (windows sendAll smallKeyMap).sizeofINPUT)]
      ∧ batch.length = [FKey.mk "Enter", FKey.mk "A"].length
      ∧ batch = [FKey.mk "Enter", FKey.mk "A"].map (fun Key =>
          { type := INPUT_KEYBOARD
            ki := { wVk := (keyRecord (windows sendAll smallKeyMap) Key true).ki.wVk
                    wScan := 0
                    dwFlags := if true then 0 else KEYEVENTF_KEYUP
                    time := 0
                    dwExtraInfo := 0 } }) :=
  GenerateKeyPressEvent_batch (windows sendAll smallKeyMap) [FKey.mk "Enter", FKey.mk "A"] true
    1 sendAll rfl rfl rfl

/-- For a key whose supplied virtual-key code, if any, is not the reserved value
`0xFFFFFFFF`, the loop body stores the selected code narrowed to 16 bits. -/
theorem keyRecord_wVk (P : Platform) (Key : FKey) (bPressed : Bool)
    (h : ∀ c, (P.GetCodesFromKey Key).1 = some c → toUInt32 c ≠ uint32MinusOne) :
    (keyRecord P Key bPressed).ki.wVk = toWORD (specCode (P.GetCodesFromKey Key)) := by
  unfold keyRecord specCode
  rcases hc : P.GetCodesFromKey Key with ⟨_ | kc, _ | cc⟩
  · simp
  · simp
  · have := h kc (by rw [hc])
    simp [this]
  · have := h kc (by rw [hc])
    simp [this]

/-- C6: every record of every submitted batch carries the same flags: `0` when
`bPressed` is true and `KEYEVENTF_KEYUP` when it is false, so the key-up bit is set
exactly when `bPressed` is false. -/
theorem GenerateKeyPressEvent_flags (P : Platform) (InKeys : List FKey) (bPressed : Bool)
    (e : Nat × List INPUT × Nat) (r : INPUT)
    (he : e ∈ submitted (GenerateKeyPressEvent P InKeys bPressed).2) (hr : r ∈ e.2.1) :
    r.ki.dwFlags = (if bPressed then 0 else KEYEVENTF_KEYUP)
    ∧ (r.ki.dwFlags &&& KEYEVENTF_KEYUP ≠ 0 ↔ bPressed = false) := by
  rw [submitted_eq P InKeys bPressed e he] at hr
  simp only [KeyArray_eq_map, List.mem_map] at hr
  obtain ⟨Key, -, rfl⟩ := hr
  have hf : (keyRecord P Key bPressed).ki.dwFlags = (if bPressed then 0 else KEYEVENTF_KEYUP) :=
    rfl
  rw [hf]
  cases bPressed
  · exact ⟨rfl, by decide⟩
  · exact ⟨rfl, by decide⟩

/-- C6 at a concrete input: three keys released, the record of `Enter`. -/
theorem GenerateKeyPressEvent_flags_witness :
    ((3, [INPUT.mk 1 (KEYBDINPUT.mk 0x41 0 2 0 0), INPUT.mk 1 (KEYBDINPUT.mk 0x0D 0 2 0 0),
          INPUT.mk 1 (KEYBDINPUT.mk 0x23 0 2 0 0)], 40)
        ∈ submitted (GenerateKeyPressEvent (windows sendAll smallKeyMap)
            [FKey.mk "A", FKey.mk "Enter", FKey.mk "Hash"] false).2)
    ∧ INPUT.mk 1 (KEYBDINPUT.mk 0x0D 0 2 0 0)
        ∈ [INPUT.mk 1 (KEYBDINPUT.mk 0x41 0 2 0 0), INPUT.mk 1 (KEYBDINPUT.mk 0x0D 0 2 0 0),
           INPUT.mk 1 (KEYBDINPUT.mk 0x23 0 2 0 0)]
    ∧ (INPUT.mk 1 (KEYBDINPUT.mk 0x0D 0 2 0 0)).ki.dwFlags
        = (if false then 0 else KEYEVENTF_KEYUP)
    ∧ ((INPUT.mk 1 (KEYBDINPUT.mk 0x0D 0 2 0 0)).ki.dwFlags &&& KEYEVENTF_KEYUP ≠ 0
        ↔ false = false) :=
  ⟨by decide, by decide,
   GenerateKeyPressEvent_flags (windows sendAll smallKeyMap)
     [FKey.mk "A", FKey.mk "Enter", FKey.mk "Hash"] false
     (3, [INPUT.mk 1 (KEYBDINPUT.mk 0x41 0 2 0 0), INPUT.mk 1 (KEYBDINPUT.mk 0x0D 0 2 0 0),
          INPUT.mk 1 (KEYBDINPUT.mk 0x23 0 2 0 0)], 40)
     (INPUT.mk 1 (KEYBDINPUT.mk 0x0D 0 2 0 0)) (by decide) (by decide)⟩

/-- C7: for a key manager that never supplies the reserved value `0xFFFFFFFF` as the
virtual-key code of a key of the sequence, in every submitted batch the code in the
record of each key is, in input order, the virtual-key code when one is supplied,
otherwise the character code when one is supplied, otherwise the sentinel
`0xFFFFFFFF`, each narrowed to the 16-bit field `wVk`. -/
theorem GenerateKeyPressEvent_codes (P : Platform) (InKeys : List FKey) (bPressed : Bool)
    (e : Nat × List INPUT × Nat)
    (hvk : ∀ Key ∈ InKeys, ∀ c, (P.GetCodesFromKey Key).1 = some c →
      toUInt32 c ≠ uint32MinusOne)
    (he : e ∈ submitted (GenerateKeyPressEvent P InKeys bPressed).2) :
    e.2.1.map (fun r => r.ki.wVk)
      = InKeys.map (fun Key => toWORD (specCode (P.GetCodesFromKey Key))) := by
  rw [submitted_eq P InKeys bPressed e he]
  simp only [KeyArray_eq_map, List.map_map]
  apply List.map_congr_left
  intro Key hKey
  exact keyRecord_wVk P Key bPressed (hvk Key hKey)

/-- C7 at a concrete input: a key with both codes, one with a virtual-key code only,
one with a character code only and one with neither. -/
theorem GenerateKeyPressEvent_codes_witness :
    (∀ Key ∈ [FKey.mk "A", FKey.mk "Enter", FKey.mk "Hash", FKey.mk "F13"], ∀ c,
        ((windows sendAll smallKeyMap).GetCodesFromKey Key).1 = some c →
        toUInt32 c ≠ uint32MinusOne)
    ∧ ((4, [INPUT.mk 1 (KEYBDINPUT.mk 0x41 0 0 0 0), INPUT.mk 1 (KEYBDINPUT.mk 0x0D 0 0 0 0),
          INPUT.mk 1 (KEYBDINPUT.mk 0x23 0 0 0 0), INPUT.mk 1 (KEYBDINPUT.mk 0xFFFF 0 0 0 0)], 40)
        ∈ submitted (GenerateKeyPressEvent (windows sendAll smallKeyMap)
            [FKey.mk "A", FKey.mk "Enter", FKey.mk "Hash", FKey.mk "F13"] true).2)
    ∧ [0x41, 0x0D, 0x23, 0xFFFF]
        = [FKey.mk "A", FKey.mk "Enter", FKey.mk "Hash", FKey.mk "F13"].map
            (fun Key => toWORD (specCode (smallKeyMap Key))) :=
  have hvk : ∀ Key ∈ [FKey.mk "A", FKey.mk "Enter", FKey.mk "Hash", FKey.mk "F13"], ∀ c,
      ((windows sendAll smallKeyMap).GetCodesFromKey Key).1 = some c →
      toUInt32 c ≠ uint32MinusOne := by
    intro Key hKey c hc
    simp only [List.mem_cons, List.mem_singleton, List.not_mem_nil, or_false] at hKey
    rcases hKey with rfl | rfl | rfl | rfl
    · have h41 : c = 0x41 := (Option.some.inj hc).symm
      subst h41
      decide
    · have h0D : c = 0x0D := (Option.some.inj hc).symm
      subst h0D
      decide
    · exact absurd hc (by simp [windows, smallKeyMap])
    · exact absurd hc (by simp [windows, smallKeyMap])
  ⟨hvk, by decide,
   GenerateKeyPressEvent_codes (windows sendAll smallKeyMap)
     [FKey.mk "A", FKey.mk "Enter", FKey.mk "Hash", FKey.mk "F13"] true
     (4, [INPUT.mk 1 (KEYBDINPUT.mk 0x41 0 0 0 0), INPUT.mk 1 (KEYBDINPUT.mk 0x0D 0 0 0 0),
          INPUT.mk 1 (KEYBDINPUT.mk 0x23 0 0 0 0), INPUT.mk 1 (KEYBDINPUT.mk 0xFFFF 0 0 0 0)], 40)
     hvk (by decide)⟩

/-! ## The projectile -/

/-- One call rewrites the velocity of the movement component and nothing else. -/
theorem FireInDirection_eq {α : Type} [Mul α] (self : AMagicProjectile α)
    (movement : UProjectileMovementComponent α) (d : FVector α)
    (h : self.ProjectileMovementComponent = some movement) :
    AFPSProjectile.FireInDirection self d
      = some { self with
          ProjectileMovementComponent :=
            some { movement with Velocity := d.scale movement.InitialSpeed } } := by
  simp [AFPSProjectile.FireInDirection, h]

/-- Any sequence of calls on an actor with a movement component succeeds and
rewrites the velocity of that component and nothing else. -/
theorem fireAll_eq {α : Type} [Mul α] (dirs : List (FVector α)) :
    ∀ (self : AMagicProjectile α) (movement : UProjectileMovementComponent α),
      self.ProjectileMovementComponent = some movement →
      ∃ v : FVector α,
        fireAll self dirs
          = some { self with
              ProjectileMovementComponent := some { movement with Velocity := v } } := by
  induction dirs with
  | nil =>
    intro self movement h
    refine ⟨movement.Velocity, ?_⟩
    cases self
    cases movement
    simp only at h
    subst h
    rfl
  | cons d ds ih =>
    intro self movement h
    obtain ⟨v, hv⟩ := ih
      { self with
        ProjectileMovementComponent :=
          some { movement with Velocity := d.scale movement.InitialSpeed } }
      { movement with Velocity := d.scale movement.InitialSpeed } rfl
    refine ⟨v, ?_⟩
    rw [fireAll, FireInDirection_eq self movement d h]
    exact hv

/-- The constructor run on an actor whose collision and movement pointers are null. -/
theorem AMagicProjectile_fresh {α : Type} [OfScientific α] (E : Engine α)
    (self : AMagicProjectile α)
    (hc : self.CollisionComponent = none) (hm : self.ProjectileMovementComponent = none) :
    (AMagicProjectile.AMagicProjectile E self).CollisionComponent
        = some { E.newSphere with SphereRadius := 15.0 }
    ∧ (AMagicProjectile.AMagicProjectile E self).ProjectileMovementComponent
        = some { E.newMovement with
            UpdatedComponent := some { E.newSphere with SphereRadius := 15.0 }
            InitialSpeed := 5000.0
            MaxSpeed := 5000.0
            bRotationFollowsVelocity := true
            bShouldBounce := true
            Bounciness := 0.2
            ProjectileGravityScale := 0.0 } := by
  cases hr : self.RootComponent <;>
    simp [AMagicProjectile.AMagicProjectile, hc, hm, hr]

/-- C2: for every direction `d` and every movement component, with whatever velocity
it held, `FireInDirection d` succeeds and leaves the velocity equal to
`(d.X * s, d.Y * s, d.Z * s)` where `s` is the component's initial speed, which the
call does not change. -/
theorem FireInDirection_velocity {α : Type} [Mul α] (self : AMagicProjectile α)
    (movement : UProjectileMovementComponent α) (d : FVector α)
    (h : self.ProjectileMovementComponent = some movement) :
    ∃ (self' : AMagicProjectile α) (movement' : UProjectileMovementComponent α),
      AFPSProjectile.FireInDirection self d = some self'
      ∧ self'.ProjectileMovementComponent = some movement'
      ∧ movement'.Velocity
          = { X := d.X * movement.InitialSpeed, Y := d.Y * movement.InitialSpeed,
              Z := d.Z * movement.InitialSpeed }
      ∧ movement'.InitialSpeed = movement.InitialSpeed := by
  refine ⟨{ self with
      ProjectileMovementComponent :=
        some { movement with Velocity := d.scale movement.InitialSpeed } },
    { movement with Velocity := d.scale movement.InitialSpeed }, ?_, rfl, rfl, rfl⟩
  simp [AFPSProjectile.FireInDirection, h]

/-- C2 at a concrete input: the constructed projectile fired along `(3/5, 0, -4/5)`. -/
theorem FireInDirection_velocity_witness :
    (AMagicProjectile.AMagicProjectile ratEngine (blankActor ℚ)).ProjectileMovementComponent
      = some { UpdatedComponent := some { SphereRadius := 15 }, InitialSpeed := 5000,
               MaxSpeed := 5000, bRotationFollowsVelocity := true, bShouldBounce := true,
               Bounciness := 1 / 5, ProjectileGravityScale := 0,
               Velocity := { X := 0, Y := 0, Z := 0 } }
    ∧ ∃ (self' : AMagicProjectile ℚ) (movement' : UProjectileMovementComponent ℚ),
      AFPSProjectile.FireInDirection (AMagicProjectile.AMagicProjectile ratEngine (blankActor ℚ))
          { X := 3 / 5, Y := 0, Z := -4 / 5 } = some self'
      ∧ self'.ProjectileMovementComponent = some movement'
      ∧ movement'.Velocity
          = { X := 3 / 5 * (5000 : ℚ), Y := 0 * (5000 : ℚ), Z := -4 / 5 * (5000 : ℚ) }
      ∧ movement'.InitialSpeed = (5000 : ℚ) :=
  have h : (AMagicProjectile.AMagicProjectile ratEngine (blankActor ℚ)).ProjectileMovementComponent
      = some { UpdatedComponent := some { SphereRadius := 15 }, InitialSpeed := 5000,
               MaxSpeed := 5000, bRotationFollowsVelocity := true, bShouldBounce := true,
               Bounciness := 1 / 5, ProjectileGravityScale := 0,
               Velocity := { X := 0, Y := 0, Z := 0 } } := by
    simp [AMagicProjectile.AMagicProjectile, blankActor, ratEngine]
    norm_num
  ⟨h, FireInDirection_velocity (AMagicProjectile.AMagicProjectile ratEngine (blankActor ℚ))
        { UpdatedComponent := some { SphereRadius := 15 }, InitialSpeed := 5000,
          MaxSpeed := 5000, bRotationFollowsVelocity := true, bShouldBounce := true,
          Bounciness := 1 / 5, ProjectileGravityScale := 0,
          Velocity := { X := 0, Y := 0, Z := 0 } }
        { X := 3 / 5, Y := 0, Z := -4 / 5 } h⟩

/-- C9: a projectile constructed from null component pointers has collision radius
15, initial and maximum speed 5000, bounce enabled, bounciness 0.2 and gravity scale
0; any sequence of `FireInDirection` calls on it succeeds and yields the constructed
actor with only the velocity of its movement component replaced, so these values
persist, both speeds are non-negative and the initial speed is at most the maximum. -/
theorem projectile_configuration {α : Type} [LinearOrderedField α] (E : Engine α)
    (self : AMagicProjectile α)
    (hc : self.CollisionComponent = none) (hm : self.ProjectileMovementComponent = none)
    (dirs : List (FVector α)) :
    ∃ (sphere : USphereComponent α) (movement : UProjectileMovementComponent α)
      (v : FVector α),
      (AMagicProjectile.AMagicProjectile E self).CollisionComponent = some sphere
      ∧ (AMagicProjectile.AMagicProjectile E self).ProjectileMovementComponent = some movement
      ∧ fireAll (AMagicProjectile.AMagicProjectile E self) dirs
          = some { AMagicProjectile.AMagicProjectile E self with
              ProjectileMovementComponent := some { movement with Velocity := v } }
      ∧ sphere.SphereRadius = 15
      ∧ movement.InitialSpeed = 5000
      ∧ movement.MaxSpeed = 5000
      ∧ movement.bShouldBounce = true
      ∧ movement.Bounciness = 0.2
      ∧ movement.ProjectileGravityScale = 0
      ∧ 0 ≤ movement.InitialSpeed
      ∧ 0 ≤ movement.MaxSpeed
      ∧ movement.InitialSpeed ≤ movement.MaxSpeed := by
  obtain ⟨h1, h2⟩ := AMagicProjectile_fresh E self hc hm
  obtain ⟨v, hv⟩ := fireAll_eq dirs _ _ h2
  refine ⟨_, _, v, h1, h2, hv, ?_, ?_, ?_, rfl, rfl, ?_, ?_, ?_, ?_⟩ <;> norm_num

/-- C9 at a concrete input: the blank actor, constructed and fired twice. -/
theorem projectile_configuration_witness :
    (blankActor ℚ).CollisionComponent = none
    ∧ (blankActor ℚ).ProjectileMovementComponent = none
    ∧ ∃ (sphere : USphereComponent ℚ) (movement : UProjectileMovementComponent ℚ)
      (v : FVector ℚ),
      (AMagicProjectile.AMagicProjectile ratEngine (blankActor ℚ)).CollisionComponent
        = some sphere
      ∧ (AMagicProjectile.AMagicProjectile ratEngine (blankActor ℚ)).ProjectileMovementComponent
        = some movement
      ∧ fireAll (AMagicProjectile.AMagicProjectile ratEngine (blankActor ℚ))
            [{ X := 1, Y := 0, Z := 0 }, { X := 0, Y := 3 / 5, Z := 4 / 5 }]
          = some { AMagicProjectile.AMagicProjectile ratEngine (blankActor ℚ) with
              ProjectileMovementComponent := some { movement with Velocity := v } }
      ∧ sphere.SphereRadius = 15
      ∧ movement.InitialSpeed = 5000
      ∧ movement.MaxSpeed = 5000
      ∧ movement.bShouldBounce = true
      ∧ movement.Bounciness = 0.2
      ∧ movement.ProjectileGravityScale = 0
      ∧ 0 ≤ movement.InitialSpeed
      ∧ 0 ≤ movement.MaxSpeed
      ∧ movement.InitialSpeed ≤ movement.MaxSpeed :=
  ⟨rfl, rfl,
   projectile_configuration ratEngine (blankActor ℚ) rfl rfl
     [{ X := 1, Y := 0, Z := 0 }, { X := 0, Y := 3 / 5, Z := 4 / 5 }]⟩

end Playground
